import Mathlib

/-!
Shallow embedding of `tracing-splunk-layer` (src/src/lib.rs): a
`tracing_subscriber` layer that accumulates per-span JSON fields in an
`EventStorage` extension, inherits a parent's fields by cloning at span
creation, timestamps the first entry of a span, and at close inserts an
`elapsed_time` field and emits the span's field store.

Modelling decisions, each tied to a source construct:
- `serde_json::Value` becomes `JsonValue`; finite doubles carry a rational
  payload, and `serde_json::Value::from(f64)` maps non-finite doubles to
  `null` (serde's `Number::from_f64` returns `None` there).
- `EventStorage`'s `HashMap<&str, Value>` becomes a key-unique association
  list with overwriting insert (`insertKV`) and key lookup (`getKV`);
  `HashMap` iteration order is irrelevant to every property proved here.
- The `Visit` impl for `EventStorage` becomes `recordField`; a field-callback
  protocol (`Attributes::record`, `Record::record`, `Event::record`) becomes
  a fold `recordFields` over the list of visited (name, typed value) pairs.
- A span's typed extension slots (`EventStorage`, `Instant`) become
  `SpanExt`; the registry of live spans becomes `LayerState`, a map from
  span id to its extension slots. `Instant` is an absolute time in
  nanoseconds; `Duration::as_millis` is division by 1000000.
- Each lifecycle hook becomes a state-passing function returning `Option`:
  `none` models a Rust panic (an `unwrap` that fails); `onClose` also
  returns the emitted record, and `onEvent` returns the (always empty) list
  of records it emits.
- `u64::try_from` on the `u128` millisecond count becomes `u64TryFrom`,
  which fails above `2 ^ 64 - 1`; the source unwraps that result.
-/

namespace SplunkHec

/-- JSON values as produced by `serde_json::Value::from` on the types the
visitor handles. Integral numbers (from `i64`/`u64`) and float numbers
(from finite `f64`) are kept as separate constructors. -/
inductive JsonValue where
  | null
  | bool (b : Bool)
  | intNum (n : Int)
  | floatNum (q : Rat)
  | str (s : String)
deriving Repr, DecidableEq

/-- Whether a `JsonValue` is a JSON number. -/
def JsonValue.isNumber : JsonValue → Bool
  | .intNum _ => true
  | .floatNum _ => true
  | _ => false

/-- An `f64`, abstracted to what the layer observes: a finite value (a
rational) or one of the non-finite values. -/
inductive F64 where
  | finite (q : Rat)
  | nan
  | posInf
  | negInf
deriving Repr, DecidableEq

/-- `f64::is_finite`. -/
def F64.isFinite : F64 → Bool
  | .finite _ => true
  | _ => false

/-- `serde_json::Value::from(value: f64)`: `Number::from_f64` yields a
number for finite input and `None` (hence `Value::Null`) otherwise. -/
def jsonOfF64 : F64 → JsonValue
  | .finite q => .floatNum q
  | _ => .null

/-- One typed field value as delivered to the `Visit` impl: the visitor has
one callback per primitive kind, plus `record_debug` which receives only
the `{:?}` rendering of an opaque value. -/
inductive FieldValue where
  | i64 (v : Int)
  | u64 (v : Nat)
  | f64 (v : F64)
  | bool (b : Bool)
  | str (s : String)
  | debug (rendering : String)
deriving Repr, DecidableEq

/-- The contents of an `EventStorage`: `HashMap<&str, serde_json::Value>`,
modelled as a key-unique association list. -/
abbrev Store := List (String × JsonValue)

/-- `HashMap::insert`: overwrite any existing entry under the same key. -/
def insertKV (s : Store) (k : String) (v : JsonValue) : Store :=
  (k, v) :: s.filter (fun p => p.1 != k)

/-- Key lookup in a store. -/
def getKV (s : Store) (k : String) : Option JsonValue :=
  match s with
  | [] => none
  | p :: rest => if p.1 = k then some p.2 else getKV rest k

/-- The `Visit` impl for `EventStorage` (src/src/lib.rs lines 38-65): each
callback inserts `(field.name(), Value::from(value))`; `record_debug`
inserts the `{:?}` rendering as a JSON string. -/
def recordField (s : Store) (name : String) (v : FieldValue) : Store :=
  match v with
  | .debug d => insertKV s name (.str d)
  | .f64 x => insertKV s name (jsonOfF64 x)
  | .i64 n => insertKV s name (.intNum n)
  | .u64 n => insertKV s name (.intNum n)
  | .bool b => insertKV s name (.bool b)
  | .str t => insertKV s name (.str t)

/-- A field-callback protocol (`attrs.record`, `values.record`,
`event.record`): the host invokes the visitor once per field, in order. -/
def recordFields (s : Store) (fs : List (String × FieldValue)) : Store :=
  fs.foldl (fun acc p => recordField acc p.1 p.2) s

/-- The coercion rule as the specification states it, per field kind:
numeric, boolean and string kinds map to the corresponding JSON value
(non-finite doubles to `null`), any other kind to its debug rendering. -/
def coerceFieldValue : FieldValue → JsonValue
  | .i64 n => .intNum n
  | .u64 n => .intNum n
  | .f64 (.finite q) => .floatNum q
  | .f64 _ => .null
  | .bool b => .bool b
  | .str s => .str s
  | .debug d => .str d

/-- Lookup in `top` overwriting `base`: the value under `k` after `base` is
overwritten by every entry of `top`. -/
def overwriteGet (top base : Store) (k : String) : Option JsonValue :=
  match getKV top k with
  | some v => some v
  | none => getKV base k

/-- A span's typed extension slots, as used by the layer: the
`EventStorage` slot and the `Instant` slot. Either may be absent. -/
structure SpanExt where
  storage : Option Store
  startInstant : Option Nat
deriving Repr, DecidableEq

/-- The per-span extension storage of all live spans, keyed by span id. -/
structure LayerState where
  exts : Nat → Option SpanExt

/-- Replace span `id`'s extension slots. -/
def setExt (st : LayerState) (id : Nat) (e : SpanExt) : LayerState :=
  ⟨fun j => if j = id then some e else st.exts j⟩

/-- The `EventStorage` slot of span `id`. -/
def storeOf (st : LayerState) (id : Nat) : Option Store :=
  (st.exts id).bind (fun e => e.storage)

/-- `on_new_span` (src/src/lib.rs lines 78-100): `ctx.span(id).unwrap()`;
clone the parent's `EventStorage` if the parent has one
(`get_mut::<EventStorage>().map(|c| c.to_owned()).unwrap_or_default()`),
else start empty; record the creation-time attributes into it; insert the
result into the new span's extensions. -/
def onNewSpan (st : LayerState) (id : Nat) (parentId : Option Nat)
    (attrs : List (String × FieldValue)) : Option LayerState := do
  let ext ← st.exts id
  let base : Store :=
    match parentId with
    | some p => ((st.exts p).bind (fun pe => pe.storage)).getD []
    | none => []
  some (setExt st id ⟨some (recordFields base attrs), ext.startInstant⟩)

/-- `on_event` (src/src/lib.rs lines 102-111): if a current span exists,
record the event's fields into its `EventStorage`
(`get_mut::<EventStorage>().unwrap()`); otherwise only an internal
`tracing::debug!` diagnostic fires. The second component is the list of
records emitted by the hook — always empty, since only `on_close` emits. -/
def onEvent (st : LayerState) (current : Option Nat)
    (fields : List (String × FieldValue)) : Option (LayerState × List Store) :=
  match current with
  | some id => do
      let ext ← st.exts id
      let store ← ext.storage
      some (setExt st id ⟨some (recordFields store fields), ext.startInstant⟩, [])
  | none => some (st, [])

/-- `on_record` (src/src/lib.rs lines 114-119): record the updated fields
into the span's existing `EventStorage` (`get_mut::<EventStorage>().unwrap()`). -/
def onRecord (st : LayerState) (id : Nat)
    (values : List (String × FieldValue)) : Option LayerState := do
  let ext ← st.exts id
  let store ← ext.storage
  some (setExt st id ⟨some (recordFields store values), ext.startInstant⟩)

/-- `on_enter` (src/src/lib.rs lines 121-130): insert `Instant::now()` into
the span's extensions only if no `Instant` is stored yet. -/
def onEnter (st : LayerState) (id : Nat) (now : Nat) : Option LayerState := do
  let ext ← st.exts id
  if ext.startInstant.isNone then
    some (setExt st id ⟨ext.storage, some now⟩)
  else
    some st

/-- `u64::try_from` on a `u128`: fails above `u64::MAX`. -/
def u64TryFrom (n : Nat) : Option Nat :=
  if n < 2 ^ 64 then some n else none

/-- The `u128` millisecond count at close, before the `u64` conversion:
`extensions.get::<Instant>().map(|t| t.elapsed().as_millis()).unwrap_or(0)`
with instants in nanoseconds. -/
def rawElapsedMillis (ext : SpanExt) (now : Nat) : Nat :=
  (ext.startInstant.map (fun t => (now - t) / 1000000)).getD 0

/-- The whole elapsed-time computation in `on_close` (src/src/lib.rs lines
139-148): the millisecond count fed through `try_into().unwrap()`. -/
def elapsedMillisAtClose (ext : SpanExt) (now : Nat) : Option Nat :=
  u64TryFrom (rawElapsedMillis ext now)

/-- `on_close` (src/src/lib.rs lines 132-156): compute the elapsed
milliseconds, insert `("elapsed_time", to_value(elapsed_time))` into the
span's `EventStorage` (`get_mut::<EventStorage>().unwrap()`), and emit the
resulting store (the `println!` of its serialization). -/
def onClose (st : LayerState) (id : Nat) (now : Nat) :
    Option (LayerState × Store) := do
  let ext ← st.exts id
  let ms ← elapsedMillisAtClose ext now
  let store ← ext.storage
  let final := insertKV store "elapsed_time" (.intNum ms)
  some (setExt st id ⟨some final, ext.startInstant⟩, final)

/-- A sample parent store used by concrete witnesses. -/
def pStore : Store := [("level", JsonValue.intNum 0), ("shared", JsonValue.str "parent")]

/-- A sample registry: span 0 is live with store `pStore` and no start
instant; span 1 is live with empty extensions. -/
def stEx : LayerState :=
  ⟨fun j =>
    if j = 0 then some ⟨some pStore, none⟩
    else if j = 1 then some ⟨none, none⟩
    else none⟩

/-- A sample registry whose span 0 carries no `EventStorage`. -/
def stNoStore : LayerState :=
  ⟨fun j =>
    if j = 0 then some ⟨none, none⟩
    else if j = 1 then some ⟨none, none⟩
    else none⟩

/-- The registry after creating span 1 as a child of span 0 in `stEx`. -/
def stC2 : LayerState :=
  setExt stEx 1 ⟨some (recordFields pStore [("a", FieldValue.bool true)]), none⟩

/-- A sample registry for closing: span 0 holds a user-supplied field named
"elapsed_time" and a start instant of 1000000 nanoseconds. -/
def stClose : LayerState :=
  ⟨fun j =>
    if j = 0 then some ⟨some [("elapsed_time", JsonValue.str "user")], some 1000000⟩
    else none⟩

theorem getKV_filter_ne (s : Store) (k k' : String) (h : k' ≠ k) :
    getKV (s.filter (fun p => p.1 != k)) k' = getKV s k' := by
  induction s with
  | nil => rfl
  | cons p rest ih =>
    by_cases hp : p.1 = k
    · have hbne : (p.1 != k) = false := by simp [hp]
      have hne : p.1 ≠ k' := by rw [hp]; exact fun hk => h hk.symm
      simp [List.filter, hbne, getKV, hne, ih]
    · have hbne : (p.1 != k) = true := by simp [hp]
      simp [List.filter, hbne, getKV, ih]

theorem getKV_insertKV (s : Store) (k k' : String) (v : JsonValue) :
    getKV (insertKV s k v) k' = if k' = k then some v else getKV s k' := by
  by_cases h : k' = k
  · simp [insertKV, getKV, h]
  · have hne : k ≠ k' := fun hk => h hk.symm
    simp [insertKV, getKV, h, hne]
    exact getKV_filter_ne s k k' h

theorem recordField_getKV (s : Store) (n k : String) (v : FieldValue) :
    getKV (recordField s n v) k = if k = n then some (coerceFieldValue v) else getKV s k := by
  cases v with
  | i64 m => simp [recordField, coerceFieldValue, getKV_insertKV]
  | u64 m => simp [recordField, coerceFieldValue, getKV_insertKV]
  | f64 x => cases x <;> simp [recordField, jsonOfF64, coerceFieldValue, getKV_insertKV]
  | bool b => simp [recordField, coerceFieldValue, getKV_insertKV]
  | str t => simp [recordField, coerceFieldValue, getKV_insertKV]
  | debug d => simp [recordField, coerceFieldValue, getKV_insertKV]

theorem overwriteGet_of_some {top base : Store} {k : String} {v : JsonValue}
    (h : getKV top k = some v) : overwriteGet top base k = some v := by
  unfold overwriteGet
  rw [h]

theorem overwriteGet_of_none {top base : Store} {k : String}
    (h : getKV top k = none) : overwriteGet top base k = getKV base k := by
  unfold overwriteGet
  rw [h]

theorem recordFields_getKV (fs : List (String × FieldValue)) (base : Store) (k : String) :
    getKV (recordFields base fs) k = overwriteGet (recordFields [] fs) base k := by
  induction fs generalizing base with
  | nil => simp [recordFields, overwriteGet, getKV]
  | cons f fs ih =>
    show getKV (recordFields (recordField base f.1 f.2) fs) k
        = overwriteGet (recordFields (recordField [] f.1 f.2) fs) base k
    cases hfs : getKV (recordFields [] fs) k with
    | some v =>
      have hr : getKV (recordFields (recordField [] f.1 f.2) fs) k = some v := by
        rw [ih, overwriteGet_of_some hfs]
      rw [ih, overwriteGet_of_some hfs, overwriteGet_of_some hr]
    | none =>
      have h3 : getKV (recordFields (recordField [] f.1 f.2) fs) k
          = getKV (recordField [] f.1 f.2) k := by
        rw [ih, overwriteGet_of_none hfs]
      by_cases hk : k = f.1
      · have h4 : getKV (recordFields (recordField [] f.1 f.2) fs) k
            = some (coerceFieldValue f.2) := by
          rw [h3, recordField_getKV]
          simp [hk, getKV]
        rw [ih, overwriteGet_of_none hfs, overwriteGet_of_some h4, recordField_getKV]
        simp [hk]
      · have h4 : getKV (recordFields (recordField [] f.1 f.2) fs) k = none := by
          rw [h3, recordField_getKV]
          simp [hk, getKV]
        rw [ih, overwriteGet_of_none hfs, overwriteGet_of_none h4, recordField_getKV]
        simp [hk]

/-- Claim C1: immediately after `on_new_span`, the field store attached to a
span created with a parent equals the parent's store at the instant of
creation, overwritten by the span's own creation-time attributes; on a name
collision the span's own attribute value takes precedence. -/
theorem C1_child_store_snapshot
    (st : LayerState) (c p : Nat) (attrs : List (String × FieldValue)) (k : String)
    (cext pext : SpanExt) (pstore : Store)
    (hc : st.exts c = some cext)
    (hp : st.exts p = some pext)
    (hps : pext.storage = some pstore) :
    ((onNewSpan st c (some p) attrs).bind (fun s => storeOf s c)).map (fun s => getKV s k)
      = some (overwriteGet (recordFields [] attrs) pstore k) := by
  simp [onNewSpan, hc, hp, hps, storeOf, setExt, recordFields_getKV]

/-- Witness for C1: concrete registry, with the attribute name "shared"
colliding with a parent field of the same name; the child's own value wins. -/
theorem C1_witness :
    stEx.exts 1 = some ⟨none, none⟩ ∧
    stEx.exts 0 = some ⟨some pStore, none⟩ ∧
    (⟨some pStore, none⟩ : SpanExt).storage = some pStore ∧
    ((onNewSpan stEx 1 (some 0) [("shared", FieldValue.str "child")]).bind
        (fun s => storeOf s 1)).map (fun s => getKV s "shared")
      = some (overwriteGet (recordFields [] [("shared", FieldValue.str "child")]) pStore "shared") ∧
    overwriteGet (recordFields [] [("shared", FieldValue.str "child")]) pStore "shared"
      = some (JsonValue.str "child") :=
  ⟨rfl, rfl, rfl,
    C1_child_store_snapshot stEx 1 0 [("shared", FieldValue.str "child")] "shared"
      ⟨none, none⟩ ⟨some pStore, none⟩ pStore rfl rfl rfl,
    by decide⟩

/-- Claim C5: an event delivered while no span is current leaves every
span's store unchanged, emits no record, and does not panic. -/
theorem C5_event_without_current_span
    (st : LayerState) (fields : List (String × FieldValue)) :
    onEvent st none fields = some (st, []) := rfl

/-- Claim C7 counterexample: the f64 callback invoked with NaN stores JSON
null under the field name, which is not a JSON number, so a non-finite f64
does not map to the corresponding JSON value. -/
theorem C7_counterexample :
    getKV (recordField [] "x" (FieldValue.f64 F64.nan)) "x" = some JsonValue.null ∧
    JsonValue.isNumber JsonValue.null = false := by
  constructor
  · decide
  · decide

/-- Claim C7 (amended): every field callback inserts exactly the pair
(name, coerced value): i64, u64, finite f64, bool and string kinds map to
the corresponding JSON value, non-finite f64 maps to JSON null, any other
(debuggable) kind is stored as its debug rendering; entries under other
names are untouched, so no callback is dropped and no name is skipped. -/
theorem C7_visitor_coercion
    (s : Store) (n k : String) (v : FieldValue) :
    getKV (recordField s n v) k
      = if k = n then some (coerceFieldValue v) else getKV s k :=
  recordField_getKV s n k v

/-- Claim C10: an f64 field whose value is non-finite is stored as JSON
null under the field's name (the name is preserved, the number is lost). -/
theorem C10_nonfinite_f64_stored_null
    (s : Store) (n : String) (v : F64) (h : F64.isFinite v = false) :
    getKV (recordField s n (FieldValue.f64 v)) n = some JsonValue.null := by
  cases v with
  | finite q => simp [F64.isFinite] at h
  | nan => simp [recordField, jsonOfF64, getKV_insertKV]
  | posInf => simp [recordField, jsonOfF64, getKV_insertKV]
  | negInf => simp [recordField, jsonOfF64, getKV_insertKV]

/-- Witness for C10 at NaN. -/
theorem C10_witness :
    F64.isFinite F64.nan = false ∧
    getKV (recordField [] "f" (FieldValue.f64 F64.nan)) "f" = some JsonValue.null :=
  ⟨rfl, C10_nonfinite_f64_stored_null [] "f" F64.nan rfl⟩

/-- Claim C2: the child's store is a detached snapshot — mutating the
parent's store after the child's creation, through on_record or on_event,
leaves the child's extension slots (its store included) unchanged. -/
theorem C2_snapshot_isolation
    (st st₁ : LayerState) (c p : Nat)
    (attrs values evfields : List (String × FieldValue))
    (cext pext : SpanExt) (pstore : Store)
    (hne : c ≠ p)
    (hc : st.exts c = some cext)
    (hp : st.exts p = some pext)
    (hps : pext.storage = some pstore)
    (h1 : onNewSpan st c (some p) attrs = some st₁) :
    ((onRecord st₁ p values).bind (fun s => s.exts c)) = st₁.exts c ∧
    ((onEvent st₁ (some p) evfields).bind (fun r => r.1.exts c)) = st₁.exts c := by
  simp [onNewSpan, hc] at h1
  subst h1
  constructor <;> simp [onRecord, onEvent, setExt, hp, hps, hne, Ne.symm hne]

/-- Witness for C2: after creating span 1 under span 0, recording on span 0
and firing an event while span 0 is current leave span 1 untouched. -/
theorem C2_witness :
    (1 : Nat) ≠ 0 ∧
    stEx.exts 1 = some ⟨none, none⟩ ∧
    stEx.exts 0 = some ⟨some pStore, none⟩ ∧
    (⟨some pStore, none⟩ : SpanExt).storage = some pStore ∧
    onNewSpan stEx 1 (some 0) [("a", FieldValue.bool true)] = some stC2 ∧
    (((onRecord stC2 0 [("level", FieldValue.u64 9)]).bind (fun s => s.exts 1)) = stC2.exts 1 ∧
      ((onEvent stC2 (some 0) [("evt", FieldValue.str "e")]).bind (fun r => r.1.exts 1)) = stC2.exts 1) :=
  ⟨by decide, rfl, rfl, rfl, rfl,
    C2_snapshot_isolation stEx stC2 1 0
      [("a", FieldValue.bool true)] [("level", FieldValue.u64 9)] [("evt", FieldValue.str "e")]
      ⟨none, none⟩ ⟨some pStore, none⟩ pStore (by decide) rfl rfl rfl rfl⟩

/-- Claim C3: the first on_enter records the current instant as the span's
start point; a subsequent on_enter is a no-op, so re-entry never resets the
start and the start remains the first entry's instant. -/
theorem C3_enter_idempotent
    (st : LayerState) (id t₁ t₂ : Nat) (ext : SpanExt)
    (hext : st.exts id = some ext)
    (hstart : ext.startInstant = none) :
    ((onEnter st id t₁).bind (fun s => onEnter s id t₂)) = onEnter st id t₁ ∧
    ((onEnter st id t₁).bind (fun s => (s.exts id).bind (fun e => e.startInstant))) = some t₁ := by
  constructor <;> simp [onEnter, hext, hstart, setExt]

/-- Witness for C3: entering span 1 at instant 10 then again at instant 99. -/
theorem C3_witness :
    stEx.exts 1 = some ⟨none, none⟩ ∧
    (⟨none, none⟩ : SpanExt).startInstant = none ∧
    ((((onEnter stEx 1 10).bind (fun s => onEnter s 1 99)) = onEnter stEx 1 10) ∧
      ((onEnter stEx 1 10).bind (fun s => (s.exts 1).bind (fun e => e.startInstant))) = some 10) :=
  ⟨rfl, rfl, C3_enter_idempotent stEx 1 10 99 ⟨none, none⟩ rfl rfl⟩

/-- Claim C4 counterexample: with a start recorded at instant 0 and the
close happening 2^64 * 1000000 nanoseconds later, the millisecond count is
2^64 and the elapsed-time computation fails (the unwrapped u64 conversion
panics) instead of saturating to the representable range. -/
theorem C4_counterexample :
    rawElapsedMillis ⟨none, some 0⟩ (2 ^ 64 * 1000000) = 2 ^ 64 ∧
    elapsedMillisAtClose ⟨none, some 0⟩ (2 ^ 64 * 1000000) = none := by
  constructor
  · decide
  · decide

/-- Claim C4 (amended): whenever the millisecond count since the recorded
start fits in u64, the computation returns exactly that count; with no
recorded start the count defaults to 0 and the computation returns 0. For
counts at or above 2^64 the unwrapped conversion panics rather than
saturating (see the counterexample). -/
theorem C4_elapsed_total_when_fits
    (ext : SpanExt) (now : Nat)
    (hfit : rawElapsedMillis ext now < 2 ^ 64) :
    elapsedMillisAtClose ext now = some (rawElapsedMillis ext now) ∧
    rawElapsedMillis ⟨ext.storage, none⟩ now = 0 ∧
    elapsedMillisAtClose ⟨ext.storage, none⟩ now = some 0 := by
  have h := hfit
  norm_num at h
  refine ⟨?_, rfl, ?_⟩
  · simp [elapsedMillisAtClose, u64TryFrom, h]
  · simp [elapsedMillisAtClose, u64TryFrom, rawElapsedMillis]

/-- Witness for C4 at a 5-millisecond duration. -/
theorem C4_witness :
    rawElapsedMillis ⟨none, some 0⟩ 5000000 < 2 ^ 64 ∧
    (elapsedMillisAtClose ⟨none, some 0⟩ 5000000 = some (rawElapsedMillis ⟨none, some 0⟩ 5000000) ∧
      rawElapsedMillis ⟨(none : Option Store), none⟩ 5000000 = 0 ∧
      elapsedMillisAtClose ⟨(none : Option Store), none⟩ 5000000 = some 0) :=
  ⟨by decide, C4_elapsed_total_when_fits ⟨none, some 0⟩ 5000000 (by decide)⟩

theorem countP_insertKV (s : Store) (k : String) (v : JsonValue) :
    (insertKV s k v).countP (fun q => q.1 == k) = 1 := by
  simp [insertKV, List.countP_cons]

/-- Claim C6: the emitted record of a closed span contains "elapsed_time"
exactly once, holding the computed millisecond count as a non-negative
integer; a user-recorded field of the same name is overwritten by it. -/
theorem C6_elapsed_time_in_record
    (st : LayerState) (id now : Nat) (ext : SpanExt) (store : Store)
    (hext : st.exts id = some ext)
    (hstore : ext.storage = some store)
    (hfit : rawElapsedMillis ext now < 2 ^ 64) :
    ((onClose st id now).map (fun r => getKV r.2 "elapsed_time"))
        = some (some (JsonValue.intNum (rawElapsedMillis ext now))) ∧
    ((onClose st id now).map (fun r => r.2.countP (fun q => q.1 == "elapsed_time"))) = some 1 ∧
    0 ≤ ((rawElapsedMillis ext now : Nat) : Int) := by
  have h := hfit
  norm_num at h
  refine ⟨?_, ?_, Int.natCast_nonneg _⟩
  · simp [onClose, hext, hstore, elapsedMillisAtClose, u64TryFrom, h, getKV_insertKV]
  · simp [onClose, hext, hstore, elapsedMillisAtClose, u64TryFrom, h, countP_insertKV]

/-- Witness for C6: closing span 0 of `stClose`, whose store already holds a
user field named "elapsed_time", 3000000 nanoseconds after its start. -/
theorem C6_witness :
    stClose.exts 0 = some ⟨some [("elapsed_time", JsonValue.str "user")], some 1000000⟩ ∧
    (⟨some [("elapsed_time", JsonValue.str "user")], some 1000000⟩ : SpanExt).storage
        = some [("elapsed_time", JsonValue.str "user")] ∧
    rawElapsedMillis ⟨some [("elapsed_time", JsonValue.str "user")], some 1000000⟩ 4000000 < 2 ^ 64 ∧
    rawElapsedMillis ⟨some [("elapsed_time", JsonValue.str "user")], some 1000000⟩ 4000000 = 3 ∧
    (((onClose stClose 0 4000000).map (fun r => getKV r.2 "elapsed_time"))
        = some (some (JsonValue.intNum
            (rawElapsedMillis ⟨some [("elapsed_time", JsonValue.str "user")], some 1000000⟩ 4000000))) ∧
      ((onClose stClose 0 4000000).map (fun r => r.2.countP (fun q => q.1 == "elapsed_time"))) = some 1 ∧
      0 ≤ ((rawElapsedMillis ⟨some [("elapsed_time", JsonValue.str "user")], some 1000000⟩ 4000000 : Nat) : Int)) :=
  ⟨rfl, rfl, by decide, by decide,
    C6_elapsed_time_in_record stClose 0 4000000
      ⟨some [("elapsed_time", JsonValue.str "user")], some 1000000⟩
      [("elapsed_time", JsonValue.str "user")] rfl rfl (by decide)⟩

/-- Claim C8: for a live span with an existing store, on_record leaves the
store equal to its previous contents overwritten by the given fields, with
overwrite-on-conflict under the same name. -/
theorem C8_record_overwrites
    (st : LayerState) (id : Nat) (values : List (String × FieldValue)) (k : String)
    (ext : SpanExt) (store : Store)
    (hext : st.exts id = some ext)
    (hstore : ext.storage = some store) :
    ((onRecord st id values).bind (fun s => storeOf s id)).map (fun s => getKV s k)
      = some (overwriteGet (recordFields [] values) store k) := by
  simp [onRecord, hext, hstore, storeOf, setExt, recordFields_getKV]

/-- Witness for C8: recording level=9 on span 0 of `stEx` overwrites the
creation-time value of "level". -/
theorem C8_witness :
    stEx.exts 0 = some ⟨some pStore, none⟩ ∧
    (⟨some pStore, none⟩ : SpanExt).storage = some pStore ∧
    ((onRecord stEx 0 [("level", FieldValue.u64 9)]).bind (fun s => storeOf s 0)).map
        (fun s => getKV s "level")
      = some (overwriteGet (recordFields [] [("level", FieldValue.u64 9)]) pStore "level") ∧
    overwriteGet (recordFields [] [("level", FieldValue.u64 9)]) pStore "level"
      = some (JsonValue.intNum 9) :=
  ⟨rfl, rfl,
    C8_record_overwrites stEx 0 [("level", FieldValue.u64 9)] "level"
      ⟨some pStore, none⟩ pStore rfl rfl,
    by decide⟩

/-- Claim C9: when the parent is live but carries no field store in its
extensions, on_new_span does not panic and initializes the child exactly as
if it had no parent: from the empty store, with its own attributes recorded. -/
theorem C9_parent_without_store
    (st : LayerState) (c p : Nat) (attrs : List (String × FieldValue))
    (cext pext : SpanExt)
    (hc : st.exts c = some cext)
    (hp : st.exts p = some pext)
    (hps : pext.storage = none) :
    ((onNewSpan st c (some p) attrs).bind (fun s => storeOf s c))
        = some (recordFields [] attrs) ∧
    ((onNewSpan st c none attrs).bind (fun s => storeOf s c))
        = some (recordFields [] attrs) := by
  constructor <;> simp [onNewSpan, hc, hp, hps, storeOf, setExt]

/-- Witness for C9: creating span 1 under storeless span 0 of `stNoStore`. -/
theorem C9_witness :
    stNoStore.exts 1 = some ⟨none, none⟩ ∧
    stNoStore.exts 0 = some ⟨none, none⟩ ∧
    (⟨none, none⟩ : SpanExt).storage = none ∧
    (((onNewSpan stNoStore 1 (some 0) [("a", FieldValue.i64 (-2))]).bind (fun s => storeOf s 1))
        = some (recordFields [] [("a", FieldValue.i64 (-2))]) ∧
      ((onNewSpan stNoStore 1 none [("a", FieldValue.i64 (-2))]).bind (fun s => storeOf s 1))
        = some (recordFields [] [("a", FieldValue.i64 (-2))])) :=
  ⟨rfl, rfl, rfl,
    C9_parent_without_store stNoStore 1 0 [("a", FieldValue.i64 (-2))]
      ⟨none, none⟩ ⟨none, none⟩ rfl rfl rfl⟩

end SplunkHec
